import Mathlib

/-!
Verification of the PDF text-extraction decision pipeline
(`app/services/pdf_extractor.py`): base64 decoding, password
authentication, the text-validity judge, and the native/OCR
extraction orchestrator, modelled as a shallow embedding.

Strings are Lean `String`s; bytes are `List Nat`; Python exceptions
are `Except String` with the exception message as the error value.
-/

namespace ExtractPDF

/-! ### Python character semantics

`pyIsSpace` is the set of characters Python treats as whitespace: it is
the same set for `str.strip()`, `str.isspace()` and the regex class
`\s` in Unicode mode (codepoints 0x09-0x0d, 0x1c-0x1f, 0x20, 0x85,
0xa0, 0x1680, 0x2000-0x200a, 0x2028, 0x2029, 0x202f, 0x205f, 0x3000).
-/

def pyIsSpace (c : Char) : Bool :=
  decide ((0x09 ≤ c.toNat ∧ c.toNat ≤ 0x0d) ∨
    (0x1c ≤ c.toNat ∧ c.toNat ≤ 0x20) ∨
    c.toNat = 0x85 ∨ c.toNat = 0xa0 ∨ c.toNat = 0x1680 ∨
    (0x2000 ≤ c.toNat ∧ c.toNat ≤ 0x200a) ∨
    c.toNat = 0x2028 ∨ c.toNat = 0x2029 ∨
    c.toNat = 0x202f ∨ c.toNat = 0x205f ∨ c.toNat = 0x3000)

/-- `text.strip()`: remove leading and trailing Python whitespace. -/
def pyStrip (s : String) : String :=
  String.mk (((s.data.dropWhile pyIsSpace).reverse.dropWhile pyIsSpace).reverse)

/-- The four characters removed by
`text.replace(" ", "").replace("\n", "").replace("\r", "").replace("\t", "")`. -/
def isRemovedWS (c : Char) : Bool :=
  decide (c.toNat = 0x20 ∨ c.toNat = 0x0a ∨ c.toNat = 0x0d ∨ c.toNat = 0x09)

/-- The `cleaned` string of `is_valid_text`: the source text with every
space, newline, carriage return and tab removed. -/
def cleanedOf (l : List Char) : List Char :=
  l.filter (fun c => !(isRemovedWS c))

/-- The readable character class of `is_valid_text`, the regex
`[一-鿿　-〿a-zA-Z0-9.,;:!?()（）、。，；：！？「」『』【】\-\s]`:
CJK ideographs, CJK punctuation, ASCII letters and digits, listed ASCII
and full-width punctuation, the hyphen, and Python whitespace (`\s`). -/
def isReadableChar (c : Char) : Bool :=
  decide ((0x4e00 ≤ c.toNat ∧ c.toNat ≤ 0x9fff) ∨
    (0x3000 ≤ c.toNat ∧ c.toNat ≤ 0x303f)) ||
  c.isAlpha || c.isDigit ||
  ".,;:!?()-".data.contains c ||
  "（）、。，；：！？「」『』【】".data.contains c ||
  pyIsSpace c

/-- The `ratio` diagnostic of the judge: readable characters over the
length of the cleaned text. -/
def readable_ratio (text : String) : ℚ :=
  mkRat (((cleanedOf text.data).filter isReadableChar).length : Int)
    ((cleanedOf text.data).length)

/-- `is_valid_text(text, threshold)` from `pdf_extractor.py`:
returns `false` for empty or whitespace-only text, `true` when the
cleaned text is empty, and otherwise compares the readable-character
ratio against the threshold. The source default threshold is 0.3. -/
def is_valid_text (text : String) (threshold : ℚ) : Bool :=
  if text = "" ∨ pyStrip text = "" then false
  else if (cleanedOf text.data).length = 0 then true
  else decide (readable_ratio text ≥ threshold)

/-- The default threshold 0.3 of `is_valid_text`. -/
def defaultThreshold : ℚ := mkRat 3 10


/-! ### Base64 decoding (`decode_base64_pdf`)

`base64.b64decode` on a `str` first ASCII-encodes the string (failing on
any non-ASCII character) and then runs `binascii.a2b_base64` in
non-strict mode: characters outside the base64 alphabet are skipped, a
`=` while fewer than two sextets of the current quad have been read is
ignored, a `=` that completes the padding of a quad ends decoding
early, and a dangling quad at the end of input is a padding error.
-/

/-- Value of a base64 alphabet character, `none` for every other
character (which non-strict `a2b_base64` silently skips). -/
def b64CharVal (c : Char) : Option Nat :=
  if 65 ≤ c.toNat ∧ c.toNat ≤ 90 then some (c.toNat - 65)
  else if 97 ≤ c.toNat ∧ c.toNat ≤ 122 then some (c.toNat - 97 + 26)
  else if 48 ≤ c.toNat ∧ c.toNat ≤ 57 then some (c.toNat - 48 + 52)
  else if c.toNat = 43 then some 62
  else if c.toNat = 47 then some 63
  else none

/-- Decoder state: position within the current 4-character quad, bits
carried from the previous character, consecutive pad count, and the
output bytes in reverse order. -/
structure B64State where
  quadPos : Nat
  leftchar : Nat
  pads : Nat
  out : List Nat

/-- The `binascii.a2b_base64` loop (non-strict mode). -/
def a2b_base64 : List Char → B64State → Except String (List Nat)
  | [], st =>
    if st.quadPos = 0 then .ok st.out.reverse
    else if st.quadPos = 1 then
      .error "Invalid base64-encoded string: number of data characters (1) cannot be 1 more than a multiple of 4"
    else .error "Incorrect padding"
  | c :: rest, st =>
    if c = '=' then
      if 2 ≤ st.quadPos then
        if 4 ≤ st.quadPos + (st.pads + 1) then .ok st.out.reverse
        else a2b_base64 rest ⟨st.quadPos, st.leftchar, st.pads + 1, st.out⟩
      else a2b_base64 rest st
    else
      match b64CharVal c with
      | none => a2b_base64 rest st
      | some v =>
        match st.quadPos with
        | 0 => a2b_base64 rest ⟨1, v, 0, st.out⟩
        | 1 => a2b_base64 rest ⟨2, v % 16, 0, (st.leftchar * 4 + v / 16) :: st.out⟩
        | 2 => a2b_base64 rest ⟨3, v % 4, 0, (st.leftchar * 16 + v / 4) :: st.out⟩
        | _ => a2b_base64 rest ⟨0, 0, 0, (st.leftchar * 64 + v) :: st.out⟩

/-- `decode_base64_pdf` from `pdf_extractor.py`: `base64.b64decode`
with every exception wrapped into the decode-failure message. -/
def decode_base64_pdf (pdf_base64 : String) : Except String (List Nat) :=
  if pdf_base64.data.all (fun c => c.toNat < 128) then
    match a2b_base64 pdf_base64.data ⟨0, 0, 0, []⟩ with
    | .ok bs => .ok bs
    | .error e => .error ("Base64 解碼失敗: " ++ e)
  else .error "Base64 解碼失敗: string argument should contain only ASCII characters"

/-- Modelled from the spec: "valid content under the agreed reversible
text encoding (standard base64)" — strict base64 well-formedness, data
characters in the alphabet followed by at most two pads, total length a
multiple of four. Used only to compare the spec with the permissive
decoder of the source. -/
def isValidBase64 (s : String) : Bool :=
  let dataPart := s.data.takeWhile (fun c => (b64CharVal c).isSome)
  let padPart := s.data.drop dataPart.length
  (padPart.all (fun c => c = '=')) && padPart.length ≤ 2 &&
    (s.data.length % 4 = 0)


/-! ### Documents, OCR environment, and the extraction orchestrator -/

/-- One page of an opened document: its native `page.get_text()`
output, and the outcome of `pytesseract.image_to_string` on the page
rendered at 300 DPI (`Except` carries a per-page OCR exception). -/
structure Page where
  nativeText : String
  ocrResult : Except String String

/-- An opened `fitz` document: whether it is encrypted
(`doc.needs_pass`), which passwords `doc.authenticate` accepts, and its
pages. -/
structure FitzDoc where
  needs_pass : Bool
  authenticate : String → Bool
  pages : List Page

/-- Whether `import pytesseract` / `from PIL import Image` succeeds. -/
structure OCREnv where
  ocrAvailable : Bool

/-- `extract_text_native`: per-page `get_text`, joined with newlines. -/
def extract_text_native (doc : FitzDoc) : String :=
  String.intercalate "\n" (doc.pages.map Page.nativeText)

/-- Message raised by `extract_text_ocr` when the OCR collaborator is
not installed. -/
def ocrUnavailableMsg : String :=
  "OCR 功能需要安裝 pytesseract 和 pillow。請執行: pip install pytesseract pillow"

/-- Per-page OCR text: the recognition result, or the inline
diagnostic placeholder when the page's OCR step raised. -/
def ocrPageText (p : Page) : String :=
  match p.ocrResult with
  | .ok t => t
  | .error e => "[OCR 失敗: " ++ e ++ "]"

/-- `extract_text_ocr`: fails if the OCR collaborator is missing,
otherwise OCRs every page (placeholder on per-page failure) and joins
with newlines. -/
def extract_text_ocr (env : OCREnv) (doc : FitzDoc) : Except String String :=
  if env.ocrAvailable then
    .ok (String.intercalate "\n" (doc.pages.map ocrPageText))
  else .error ocrUnavailableMsg

/-- The password loop of `extract_text_from_pdf`: try candidates in
list order, stop at the first accepted one. Returns whether
authentication succeeded and the list of candidates actually tried. -/
def tryPasswordsTrace (auth : String → Bool) : List String → Bool × List String
  | [] => (false, [])
  | p :: rest =>
    if auth p then (true, [p])
    else
      let r := tryPasswordsTrace auth rest
      (r.1, p :: r.2)

/-- Whether the password loop succeeds (the `authenticated` flag). -/
def tryPasswords (auth : String → Bool) (passwords : List String) : Bool :=
  (tryPasswordsTrace auth passwords).1

/-- Message of the `AuthenticationError` raised when every candidate
password is rejected. -/
def authFailMsg : String := "PDF 密碼驗證失敗：提供的密碼均不正確"

/-- The extraction phase of `extract_text_from_pdf` after the password
check: forced OCR, or native extraction gated by the judge with OCR
fallback. Returns the result together with the number of
`is_valid_text` calls made. -/
def afterAuth (env : OCREnv) (doc : FitzDoc) (force_ocr : Bool) :
    Except String String × Nat :=
  if force_ocr then (extract_text_ocr env doc, 0)
  else
    let native := extract_text_native doc
    if is_valid_text native defaultThreshold then (.ok native, 1)
    else
      match extract_text_ocr env doc with
      | .ok ocr_text =>
        (if is_valid_text ocr_text defaultThreshold then .ok ocr_text
         else .ok native, 2)
      | .error _ => (.ok native, 1)

/-- Instrumented outcome of the body of `extract_text_from_pdf`. -/
structure BodyOut where
  result : Except String String
  judgeCalls : Nat
  authAttempts : Nat

/-- Body of `extract_text_from_pdf` (inside the `try` that owns the
opened handle): password check, then the extraction phase. -/
def extract_body (env : OCREnv) (doc : FitzDoc) (passwords : List String)
    (force_ocr : Bool) : BodyOut :=
  if doc.needs_pass then
    let tr := tryPasswordsTrace doc.authenticate passwords
    if tr.1 then
      let r := afterAuth env doc force_ocr
      ⟨r.1, r.2, tr.2.length⟩
    else ⟨.error authFailMsg, 0, tr.2.length⟩
  else
    let r := afterAuth env doc force_ocr
    ⟨r.1, r.2, 0⟩

/-- Instrumented outcome of a whole `extract_text_from_pdf` call:
result, number of `doc.close()` calls, judge calls, authentication
attempts. -/
structure Trace where
  result : Except String String
  closes : Nat
  judgeCalls : Nat
  authAttempts : Nat

/-- `extract_text_from_pdf`, instrumented. `openResult` is the outcome
of `fitz.open(stream=pdf_bytes)`: on failure the open error is wrapped
and no handle exists to close; on success the body runs inside
`try ... finally doc.close()`, so the handle is closed exactly once
whether the body returns or raises. -/
def extract_text_from_pdf_traced (env : OCREnv)
    (openResult : Except String FitzDoc) (passwords : List String)
    (force_ocr : Bool) : Trace :=
  match openResult with
  | .error e => ⟨.error ("無法開啟 PDF 文件: " ++ e), 0, 0, 0⟩
  | .ok doc =>
    let b := extract_body env doc passwords force_ocr
    ⟨b.result, 1, b.judgeCalls, b.authAttempts⟩

/-- `extract_text_from_pdf`: the returned text or raised exception. -/
def extract_text_from_pdf (env : OCREnv) (openResult : Except String FitzDoc)
    (passwords : List String) (force_ocr : Bool) : Except String String :=
  (extract_text_from_pdf_traced env openResult passwords force_ocr).result

/-- `extract_text_from_base64_pdf`: decode, then extract.
`fitzOpen` is the PDF collaborator (`fitz.open` on the decoded
bytes). -/
def extract_text_from_base64_pdf (fitzOpen : List Nat → Except String FitzDoc)
    (env : OCREnv) (pdf_base64 : String) (passwords : List String)
    (force_ocr : Bool) : Except String String :=
  match decode_base64_pdf pdf_base64 with
  | .error e => .error e
  | .ok pdf_bytes => extract_text_from_pdf env (fitzOpen pdf_bytes) passwords force_ocr

/-- Whether `pat` occurs at the start of `l`. -/
def listStartsWith : List Char → List Char → Bool
  | _, [] => true
  | [], _ :: _ => false
  | a :: as, b :: bs => (a = b) && listStartsWith as bs

/-- Whether `pat` occurs as a contiguous sublist of `l`. -/
def listContainsSub : List Char → List Char → Bool
  | [], pat => pat.isEmpty
  | a :: as, pat => listStartsWith (a :: as) pat || listContainsSub as pat

/-- Whether `pat` occurs as a substring of `s`. -/
def containsSub (s pat : String) : Bool :=
  listContainsSub s.data pat.data

/-- A PDF collaborator that rejects its input, as `fitz.open` does on a
stream that is not a PDF (such as the empty byte sequence). -/
def openRejects : List Nat → Except String FitzDoc :=
  fun _ => .error "Failed to open stream"

/-- Fixture: OCR collaborator installed. -/
def envOCR : OCREnv := ⟨true⟩

/-- Fixture: OCR collaborator missing. -/
def envNoOCR : OCREnv := ⟨false⟩

/-- Fixture: a one-page encrypted document accepting the password
"correct". -/
def docEnc : FitzDoc :=
  ⟨true, fun s => s == "correct", [⟨"Hello World", Except.ok "Hello World"⟩]⟩

/-- Fixture: a one-page unencrypted document with readable native
text. -/
def docPlain : FitzDoc :=
  ⟨false, fun _ => false, [⟨"Hello World", Except.ok "Hello World"⟩]⟩

/-- Fixture: a one-page unencrypted document whose native text is
garbled (replacement characters) and whose OCR output is readable. -/
def docGarbled : FitzDoc :=
  ⟨false, fun _ => false, [⟨"\uFFFD\uFFFD\uFFFD", Except.ok "Hello World"⟩]⟩

/-! ### Lemmas about the Text-Validity Judge -/

/-- `readable_ratio` is the division `readable_chars / len(cleaned)`
performed by the source. -/
theorem readable_ratio_eq_div (text : String) :
    readable_ratio text =
      ((((cleanedOf text.data).filter isReadableChar).length : ℚ) /
        ((cleanedOf text.data).length : ℚ)) := by
  simp [readable_ratio, Rat.mkRat_eq_div]

/-- Each of the four characters removed when building `cleaned` is
Python whitespace. -/
theorem removedWS_isSpace (c : Char) (h : isRemovedWS c = true) :
    pyIsSpace c = true := by
  simp only [isRemovedWS, decide_eq_true_eq] at h
  simp only [pyIsSpace, decide_eq_true_eq]
  omega

/-- `text.strip()` is empty exactly when every character of the text is
Python whitespace. -/
theorem pyStrip_eq_empty_iff (s : String) :
    pyStrip s = "" ↔ ∀ c ∈ s.data, pyIsSpace c = true := by
  unfold pyStrip
  constructor
  · intro h c hc
    have hl : ((s.data.dropWhile pyIsSpace).reverse.dropWhile pyIsSpace).reverse
        = ([] : List Char) := congrArg String.data h
    rw [List.reverse_eq_nil_iff, List.dropWhile_eq_nil_iff] at hl
    have hsplit : s.data.takeWhile pyIsSpace ++ s.data.dropWhile pyIsSpace
        = s.data := List.takeWhile_append_dropWhile pyIsSpace s.data
    rw [← hsplit] at hc
    rcases List.mem_append.mp hc with htk | hdr
    · exact List.mem_takeWhile_imp htk
    · exact hl c (List.mem_reverse.mpr hdr)
  · intro h
    have h1 : s.data.dropWhile pyIsSpace = [] :=
      List.dropWhile_eq_nil_iff.mpr (fun c hc => h c hc)
    simp [h1]

/-- A character that is not Python whitespace survives the `cleaned`
filter, so the cleaned text of a string with a non-whitespace character
is non-empty. -/
theorem cleaned_ne_nil (l : List Char) (h : ∃ c ∈ l, pyIsSpace c = false) :
    cleanedOf l ≠ [] := by
  obtain ⟨c, hc, hcs⟩ := h
  have hrm : isRemovedWS c = false := by
    rcases Bool.eq_false_or_eq_true (isRemovedWS c) with h1 | h1
    · exact absurd (removedWS_isSpace c h1) (by simp [hcs])
    · exact h1
  have : c ∈ cleanedOf l := by
    apply List.mem_filter.mpr
    exact ⟨hc, by simp [hrm]⟩
  exact List.ne_nil_of_mem this

/-- A string with a non-whitespace character is non-empty, has a
non-empty strip, and a non-empty cleaned text. -/
theorem judge_guards (s : String) (h : ∃ c ∈ s.data, pyIsSpace c = false) :
    ¬(s = "" ∨ pyStrip s = "") ∧ (cleanedOf s.data).length ≠ 0 := by
  obtain ⟨c, hc, hcs⟩ := h
  refine ⟨?_, ?_⟩
  · rintro (h1 | h1)
    · subst h1; simp at hc
    · have := (pyStrip_eq_empty_iff s).mp h1 c hc
      simp [this] at hcs
  · intro hlen
    exact cleaned_ne_nil s.data ⟨c, hc, hcs⟩ (List.length_eq_zero.mp hlen)

/-! ### Claim theorems -/

/-- C3 counterexample: the Text-Validity Judge judges the string of
three spaces, a newline and a tab NOT readable at the default
threshold, contrary to the claim. -/
theorem c3_counterexample :
    is_valid_text "   \n\t" defaultThreshold = false := by decide

/-- C3 (amended): every non-empty string consisting only of whitespace
characters is judged NOT readable, at every threshold: the
empty-or-whitespace-only guard of `is_valid_text` precedes the
strip-to-empty branch, which is unreachable. -/
theorem c3_whitespace_not_readable (s : String) (q : ℚ) (_hne : s ≠ "")
    (hws : ∀ c ∈ s.data, pyIsSpace c = true) :
    is_valid_text s q = false := by
  have hstrip : pyStrip s = "" := (pyStrip_eq_empty_iff s).mpr hws
  simp [is_valid_text, hstrip]

/-- C3 witness: the amended statement at the claim's concrete input. -/
theorem c3_witness :
    ("   \n\t" : String) ≠ "" ∧
      is_valid_text "   \n\t" defaultThreshold = false :=
  ⟨by decide, c3_whitespace_not_readable "   \n\t" defaultThreshold
    (by decide) (by decide)⟩

/-- C4: for every string with at least one non-whitespace character and
every threshold, the judge returns readable exactly when the ratio of
readable characters over the cleaned length is at least the threshold;
a 50% CJK / 50% symbol string is readable at threshold 0.3 and not
readable at threshold 0.6. -/
theorem c4_ratio_verdict :
    (∀ (s : String) (q : ℚ), (∃ c ∈ s.data, pyIsSpace c = false) →
      is_valid_text s q =
        decide (((((cleanedOf s.data).filter isReadableChar).length : ℚ) /
          ((cleanedOf s.data).length : ℚ)) ≥ q)) ∧
    is_valid_text "漢字♣♠" (mkRat 3 10) = true ∧
    is_valid_text "漢字♣♠" (mkRat 6 10) = false := by
  refine ⟨?_, by decide, by decide⟩
  intro s q h
  obtain ⟨hguard, hlen⟩ := judge_guards s h
  rw [is_valid_text, if_neg hguard, if_neg hlen, ← readable_ratio_eq_div]

/-- C4 witness: the ratio equation at a concrete input. -/
theorem c4_witness :
    is_valid_text "漢字♣♠" (mkRat 3 10) =
      decide (((((cleanedOf ("漢字♣♠" : String).data).filter
          isReadableChar).length : ℚ) /
        ((cleanedOf ("漢字♣♠" : String).data).length : ℚ)) ≥ mkRat 3 10) :=
  c4_ratio_verdict.1 "漢字♣♠" (mkRat 3 10) ⟨'漢', by decide, by decide⟩

/-- C10: the judge is total — it returns a boolean on every input —
and the ratio division is reachable only with a non-empty cleaned
text: whenever `text.strip()` is non-empty, the cleaned text is
non-empty as well. -/
theorem c10_judge_total (text : String) (q : ℚ) :
    (is_valid_text text q = true ∨ is_valid_text text q = false) ∧
      (pyStrip text ≠ "" → cleanedOf text.data ≠ []) := by
  refine ⟨Bool.eq_false_or_eq_true _, ?_⟩
  intro hstrip
  have : ¬ ∀ c ∈ text.data, pyIsSpace c = true := by
    intro hall
    exact hstrip ((pyStrip_eq_empty_iff text).mpr hall)
  push_neg at this
  obtain ⟨c, hc, hcs⟩ := this
  exact cleaned_ne_nil text.data ⟨c, hc, by simp [hcs]⟩

/-- C10 witness: the theorem at a concrete input with a non-empty
strip. -/
theorem c10_witness :
    pyStrip "a" ≠ "" ∧ cleanedOf ("a" : String).data ≠ [] :=
  ⟨by decide, (c10_judge_total "a" defaultThreshold).2 (by decide)⟩

/-! ### Lemmas about the password loop and the orchestrator -/

/-- When some candidate is accepted, the password loop succeeds, and
the candidates actually tried are exactly the rejected ones before the
first accepted candidate, followed by that candidate. -/
theorem tryPasswordsTrace_success (auth : String → Bool) (l : List String)
    (h : ∃ p ∈ l, auth p = true) :
    (tryPasswordsTrace auth l).1 = true ∧
    (tryPasswordsTrace auth l).2
      = l.takeWhile (fun q => !auth q)
        ++ (l.dropWhile (fun q => !auth q)).take 1 := by
  induction l with
  | nil => simp at h
  | cons p rest ih =>
    rcases Bool.eq_false_or_eq_true (auth p) with hp | hp
    · simp [tryPasswordsTrace, hp]
    · obtain ⟨x, hx, hax⟩ := h
      rcases List.mem_cons.mp hx with hxp | hxr
      · subst hxp; simp [hax] at hp
      · have ihh := ih ⟨x, hxr, hax⟩
        simp [tryPasswordsTrace, hp, ihh.1, ihh.2]

/-- When every candidate is rejected, the password loop fails after
trying every candidate. -/
theorem tryPasswordsTrace_fail (auth : String → Bool) (l : List String)
    (h : ∀ p ∈ l, auth p = false) :
    (tryPasswordsTrace auth l).1 = false ∧ (tryPasswordsTrace auth l).2 = l := by
  induction l with
  | nil => simp [tryPasswordsTrace]
  | cons p rest ih =>
    have hp := h p (by simp)
    have ihh := ih (fun x hx => h x (by simp [hx]))
    simp [tryPasswordsTrace, hp, ihh.1, ihh.2]

/-- When authentication is not required or succeeds, the body of
`extract_text_from_pdf` behaves as its extraction phase. -/
theorem extract_body_eq (env : OCREnv) (doc : FitzDoc)
    (passwords : List String) (force_ocr : Bool)
    (hauth : doc.needs_pass = true →
      tryPasswords doc.authenticate passwords = true) :
    (extract_body env doc passwords force_ocr).result
      = (afterAuth env doc force_ocr).1 ∧
    (extract_body env doc passwords force_ocr).judgeCalls
      = (afterAuth env doc force_ocr).2 := by
  rcases Bool.eq_false_or_eq_true doc.needs_pass with hnp | hnp
  · have h1 := hauth hnp
    rw [tryPasswords] at h1
    simp [extract_body, hnp, h1]
  · simp [extract_body, hnp]

/-- With forced OCR off, the extraction phase always returns a text:
every branch of the native/OCR decision ends in a value. -/
theorem afterAuth_fallback_ok (env : OCREnv) (doc : FitzDoc) :
    ∃ t, (afterAuth env doc false).1 = Except.ok t := by
  rcases Bool.eq_false_or_eq_true
      (is_valid_text (extract_text_native doc) defaultThreshold) with hn | hn
  · exact ⟨extract_text_native doc, by simp [afterAuth, hn]⟩
  · cases hocr : extract_text_ocr env doc with
    | ok t =>
      rcases Bool.eq_false_or_eq_true (is_valid_text t defaultThreshold)
          with ht | ht
      · exact ⟨t, by simp [afterAuth, hn, hocr, ht]⟩
      · exact ⟨extract_text_native doc, by simp [afterAuth, hn, hocr, ht]⟩
    | error e => exact ⟨extract_text_native doc, by simp [afterAuth, hn, hocr]⟩

/-- A pattern list occurs at the start of any extension of itself. -/
theorem listStartsWith_append (a b : List Char) :
    listStartsWith (a ++ b) a = true := by
  induction a with
  | nil => cases b <;> simp [listStartsWith]
  | cons x xs ih => simp [listStartsWith, ih]

/-- C1: when the document needs a password and an accepted candidate
appears anywhere in the list, the authenticator succeeds, the
candidates tried are exactly the rejected ones up to and including the
first accepted one (strict list order, first-match-wins), and
extraction proceeds to the extraction phase. -/
theorem c1_first_match_wins (env : OCREnv) (doc : FitzDoc)
    (passwords : List String) (force_ocr : Bool)
    (_hnp : doc.needs_pass = true) (p : String) (hp : p ∈ passwords)
    (hok : doc.authenticate p = true) :
    tryPasswords doc.authenticate passwords = true ∧
    (tryPasswordsTrace doc.authenticate passwords).2
      = passwords.takeWhile (fun q => !doc.authenticate q)
        ++ (passwords.dropWhile (fun q => !doc.authenticate q)).take 1 ∧
    (extract_body env doc passwords force_ocr).result
      = (afterAuth env doc force_ocr).1 := by
  have h := tryPasswordsTrace_success doc.authenticate passwords ⟨p, hp, hok⟩
  exact ⟨h.1, h.2,
    (extract_body_eq env doc passwords force_ocr (fun _ => h.1)).1⟩

/-- C1 witness: the theorem at the spec's concrete scenario
`passwords = ["wrong", "correct"]`. -/
theorem c1_witness :
    tryPasswords docEnc.authenticate ["wrong", "correct"] = true ∧
    (tryPasswordsTrace docEnc.authenticate ["wrong", "correct"]).2
      = (["wrong", "correct"].takeWhile (fun q => !docEnc.authenticate q)
        ++ ((["wrong", "correct"].dropWhile
            (fun q => !docEnc.authenticate q)).take 1)) ∧
    (extract_body envOCR docEnc ["wrong", "correct"] false).result
      = (afterAuth envOCR docEnc false).1 :=
  c1_first_match_wins envOCR docEnc ["wrong", "correct"] false rfl
    "correct" (by simp) (by rfl)

/-- C2: with forced OCR off and the native text judged not readable —
if OCR raises (in particular when its collaborator is unavailable) the
native text is returned; if OCR succeeds and its output is judged
readable, the OCR text is returned; if OCR succeeds but its output is
judged not readable, the native text is returned. -/
theorem c2_ocr_fallback (env : OCREnv) (doc : FitzDoc)
    (passwords : List String)
    (hauth : doc.needs_pass = true →
      tryPasswords doc.authenticate passwords = true)
    (hnv : is_valid_text (extract_text_native doc) defaultThreshold = false) :
    (∀ e, extract_text_ocr env doc = .error e →
      (extract_body env doc passwords false).result
        = .ok (extract_text_native doc)) ∧
    (∀ t, extract_text_ocr env doc = .ok t →
      is_valid_text t defaultThreshold = true →
      (extract_body env doc passwords false).result = .ok t) ∧
    (∀ t, extract_text_ocr env doc = .ok t →
      is_valid_text t defaultThreshold = false →
      (extract_body env doc passwords false).result
        = .ok (extract_text_native doc)) := by
  have hb := (extract_body_eq env doc passwords false hauth).1
  refine ⟨?_, ?_, ?_⟩
  · intro e he; rw [hb]; simp [afterAuth, hnv, he]
  · intro t ht hv; rw [hb]; simp [afterAuth, hnv, ht, hv]
  · intro t ht hv; rw [hb]; simp [afterAuth, hnv, ht, hv]

/-- C2 witness: a garbled document with the OCR collaborator missing
returns its native text unchanged. -/
theorem c2_witness :
    (extract_body envNoOCR docGarbled [] false).result
      = Except.ok (extract_text_native docGarbled) :=
  (c2_ocr_fallback envNoOCR docGarbled [] (by decide) (by decide)).1
    ocrUnavailableMsg (by rfl)

/-- C5: a password-protected document whose candidate list is empty or
entirely rejected fails with the authentication error, whose message
contains the password indicator "密碼", absent from the open-failure
message prefix. -/
theorem c5_auth_failure (env : OCREnv) (doc : FitzDoc)
    (passwords : List String) (force_ocr : Bool)
    (hnp : doc.needs_pass = true)
    (hall : ∀ p ∈ passwords, doc.authenticate p = false) :
    (extract_body env doc passwords force_ocr).result
      = Except.error authFailMsg ∧
    containsSub authFailMsg "密碼" = true ∧
    containsSub "無法開啟 PDF 文件: " "密碼" = false := by
  have h := tryPasswordsTrace_fail doc.authenticate passwords hall
  refine ⟨?_, by decide, by decide⟩
  simp [extract_body, hnp, h.1]

/-- C5 witness: the empty candidate list against an encrypted
document. -/
theorem c5_witness :
    (extract_body envOCR docEnc [] false).result
      = Except.error authFailMsg ∧
    containsSub authFailMsg "密碼" = true ∧
    containsSub "無法開啟 PDF 文件: " "密碼" = false :=
  c5_auth_failure envOCR docEnc [] false (by rfl) (by simp)

/-- C6: with forced OCR (and authentication passing), the judge is
never invoked, the result is exactly the OCR extraction over every
page, and a missing OCR collaborator surfaces its error to the caller
instead of falling back to native text. -/
theorem c6_force_ocr (env : OCREnv) (doc : FitzDoc)
    (passwords : List String)
    (hauth : doc.needs_pass = true →
      tryPasswords doc.authenticate passwords = true) :
    (extract_text_from_pdf_traced env (.ok doc) passwords true).judgeCalls
      = 0 ∧
    (extract_text_from_pdf_traced env (.ok doc) passwords true).result
      = extract_text_ocr env doc ∧
    (env.ocrAvailable = true →
      (extract_text_from_pdf_traced env (.ok doc) passwords true).result
        = .ok (String.intercalate "\n" (doc.pages.map ocrPageText))) ∧
    (env.ocrAvailable = false →
      (extract_text_from_pdf_traced env (.ok doc) passwords true).result
        = .error ocrUnavailableMsg) := by
  have hb := extract_body_eq env doc passwords true hauth
  have hres : (extract_text_from_pdf_traced env (.ok doc) passwords
      true).result = extract_text_ocr env doc := by
    simp [extract_text_from_pdf_traced, hb.1, afterAuth]
  have hj : (extract_text_from_pdf_traced env (.ok doc) passwords
      true).judgeCalls = 0 := by
    simp [extract_text_from_pdf_traced, hb.2, afterAuth]
  refine ⟨hj, hres, ?_, ?_⟩
  · intro ha; rw [hres]; simp [extract_text_ocr, ha]
  · intro ha; rw [hres]; simp [extract_text_ocr, ha]

/-- C6 witness: forced OCR with the collaborator missing surfaces the
OCR-unavailable error. -/
theorem c6_witness :
    (extract_text_from_pdf_traced envNoOCR (.ok docPlain) [] true).judgeCalls
      = 0 ∧
    (extract_text_from_pdf_traced envNoOCR (.ok docPlain) [] true).result
      = extract_text_ocr envNoOCR docPlain ∧
    (envNoOCR.ocrAvailable = true →
      (extract_text_from_pdf_traced envNoOCR (.ok docPlain) [] true).result
        = .ok (String.intercalate "\n" (docPlain.pages.map ocrPageText))) ∧
    (envNoOCR.ocrAvailable = false →
      (extract_text_from_pdf_traced envNoOCR (.ok docPlain) [] true).result
        = .error ocrUnavailableMsg) :=
  c6_force_ocr envNoOCR docPlain [] (by decide)

/-- C7: when the open succeeds the handle is closed exactly once on
every exit path of the call, and when the open fails no close is
attempted. -/
theorem c7_close_exactly_once (env : OCREnv)
    (openResult : Except String FitzDoc) (passwords : List String)
    (force_ocr : Bool) :
    (∀ doc, openResult = .ok doc →
      (extract_text_from_pdf_traced env openResult passwords
        force_ocr).closes = 1) ∧
    (∀ e, openResult = .error e →
      (extract_text_from_pdf_traced env openResult passwords
        force_ocr).closes = 0) := by
  constructor
  · intro doc h; subst h; simp [extract_text_from_pdf_traced]
  · intro e h; subst h; simp [extract_text_from_pdf_traced]

/-- C7 witness: one close after a successful open (with an exit through
the authentication error path) and none after a failed open. -/
theorem c7_witness :
    (extract_text_from_pdf_traced envOCR (.ok docEnc) [] false).closes
      = 1 ∧
    (extract_text_from_pdf_traced envOCR (.error "broken") [] false).closes
      = 0 :=
  ⟨(c7_close_exactly_once envOCR (.ok docEnc) [] false).1 docEnc rfl,
   (c7_close_exactly_once envOCR (.error "broken") [] false).2 "broken" rfl⟩

/-- C9: a document that needs no password makes no authentication
attempt, its result does not depend on the candidate list, and (in the
default non-forced mode) extraction succeeds. -/
theorem c9_no_password (env : OCREnv) (doc : FitzDoc)
    (passwords : List String) (force_ocr : Bool)
    (hnp : doc.needs_pass = false) :
    (extract_text_from_pdf_traced env (.ok doc) passwords
      force_ocr).authAttempts = 0 ∧
    (extract_text_from_pdf_traced env (.ok doc) passwords
      force_ocr).result
      = (extract_text_from_pdf_traced env (.ok doc) [] force_ocr).result ∧
    (force_ocr = false → ∃ t,
      (extract_text_from_pdf_traced env (.ok doc) passwords
        force_ocr).result = Except.ok t) := by
  refine ⟨?_, ?_, ?_⟩
  · simp [extract_text_from_pdf_traced, extract_body, hnp]
  · simp [extract_text_from_pdf_traced, extract_body, hnp]
  · intro hf; subst hf
    obtain ⟨t, ht⟩ := afterAuth_fallback_ok env doc
    exact ⟨t, by simp [extract_text_from_pdf_traced, extract_body, hnp, ht]⟩

/-- C9 witness: a non-empty candidate list against an unencrypted
document. -/
theorem c9_witness :
    (extract_text_from_pdf_traced envOCR (.ok docPlain) ["x"]
      false).authAttempts = 0 ∧
    (extract_text_from_pdf_traced envOCR (.ok docPlain) ["x"]
      false).result
      = (extract_text_from_pdf_traced envOCR (.ok docPlain) []
          false).result ∧
    (false = false → ∃ t,
      (extract_text_from_pdf_traced envOCR (.ok docPlain) ["x"]
        false).result = Except.ok t) :=
  c9_no_password envOCR docPlain ["x"] false rfl

/-- C8 counterexample: "$$$$" is not valid base64 yet decodes without
error — to the empty byte sequence, as does the empty string — so the
pipeline proceeds past the decode stage and fails at the open stage
with an open error, not a decode error. -/
theorem c8_counterexample :
    isValidBase64 "$$$$" = false ∧
    decode_base64_pdf "$$$$" = Except.ok [] ∧
    decode_base64_pdf "" = Except.ok [] ∧
    extract_text_from_base64_pdf openRejects envOCR "$$$$" [] false
      = Except.error "無法開啟 PDF 文件: Failed to open stream" ∧
    containsSub "無法開啟 PDF 文件: Failed to open stream"
      "Base64 解碼失敗" = false :=
  ⟨by decide, by rfl, by rfl, by rfl, by decide⟩

/-- C8 (amended): whenever the underlying decoder rejects the input
(incorrect padding after discarding characters outside the base64
alphabet, or non-ASCII input), `extractText` fails with a decode error
carrying the underlying reason; but characters outside the alphabet
are otherwise discarded rather than rejected, so some invalid inputs
decode successfully — possibly to an empty byte sequence — and then
fail at the open stage instead (see the counterexample). -/
theorem c8_decode_errors (fitzOpen : List Nat → Except String FitzDoc)
    (env : OCREnv) (s : String) (passwords : List String)
    (force_ocr : Bool) (e : String)
    (hdec : decode_base64_pdf s = .error e) :
    extract_text_from_base64_pdf fitzOpen env s passwords force_ocr
      = .error e ∧
    listStartsWith e.data ("Base64 解碼失敗: ").data = true := by
  constructor
  · simp [extract_text_from_base64_pdf, hdec]
  · rw [decode_base64_pdf] at hdec
    rcases Bool.eq_false_or_eq_true (s.data.all (fun c => c.toNat < 128))
        with hascii | hascii
    · rw [if_pos (by simp [hascii])] at hdec
      cases ha : a2b_base64 s.data ⟨0, 0, 0, []⟩ with
      | ok bs => rw [ha] at hdec; simp at hdec
      | error e0 =>
        rw [ha] at hdec
        have he : e = "Base64 解碼失敗: " ++ e0 := by
          injection hdec with h1; exact h1.symm
        subst he
        rw [String.data_append]
        exact listStartsWith_append _ _
    · rw [if_neg (by simp [hascii])] at hdec
      have he : e
          = "Base64 解碼失敗: string argument should contain only ASCII characters" := by
        injection hdec with h1; exact h1.symm
      subst he
      decide

/-- C8 witness: a padding-invalid input fails with the decode error. -/
theorem c8_witness :
    extract_text_from_base64_pdf openRejects envOCR "QQ" [] false
      = Except.error "Base64 解碼失敗: Incorrect padding" ∧
    listStartsWith ("Base64 解碼失敗: Incorrect padding" : String).data
      ("Base64 解碼失敗: " : String).data = true :=
  c8_decode_errors openRejects envOCR "QQ" [] false
    "Base64 解碼失敗: Incorrect padding" (by rfl)

end ExtractPDF
